import Mathlib

/-!
Verification of the date-aware price estimator of the Airbnb dashboard
(`streamlit_app.py`), as a shallow embedding in Lean.

Design of the embedding:
* a dataframe row is a `Listing` (`city`, `room_type`, `price`); the
  `price` column is modelled by `ℚ` (the source manipulates exact decimal
  constants only);
* a calendar date is its day number since 1970-01-01 (an `ℤ`), matching
  pandas timestamps; `weekday` and `monthOf` implement the civil-calendar
  conversions (Monday = 0, as in Python's `date.weekday()`);
* `pd.Series.median()` is `median`, returning `none` on an empty series
  (the model of pandas `NaN`);
* the predictor block guarded by the date-validation check is
  `predictorAction`, returning `.warning` when `check_out <= check_in`
  and `.result price nights` otherwise;
* which dashboard sections are rendered for a given set of CSV columns is
  `renderDashboard`.
-/

namespace Airbnb

/-- One row of the dataset: the columns the estimator reads. -/
structure Listing where
  city : String
  room_type : String
  price : ℚ
deriving DecidableEq, Repr

/-- The in-memory dataset: an ordered sequence of rows. -/
abbrev Dataset := List Listing

/-- Python `date.weekday()` on an epoch-day number: Monday = 0, ...,
Sunday = 6. Day 0 (1970-01-01) was a Thursday, weekday 3. -/
def weekday (d : ℤ) : ℤ := (d + 3) % 7

/-- The month (1..12) of an epoch-day number, by the standard civil
calendar conversion (days-to-Gregorian). -/
def monthOf (d : ℤ) : ℤ :=
  let z := d + 719468
  let era := z / 146097
  let doe := z - era * 146097
  let yoe := (doe - doe / 1460 + doe / 36524 - doe / 146096) / 365
  let doy := doe - (365 * yoe + yoe / 4 - yoe / 100)
  let mp := (5 * doy + 2) / 153
  mp + (if mp < 10 then 3 else -9)

/-- The epoch-day number of a Gregorian date (inverse of the civil
conversion); used to name concrete calendar dates in the theorems. -/
def daysFromCivil (y m d : ℤ) : ℤ :=
  let y := y - (if m ≤ 2 then 1 else 0)
  let era := y / 400
  let yoe := y - era * 400
  let doy := (153 * (m + (if 2 < m then -3 else 9)) + 2) / 5 + d - 1
  let doe := yoe * 365 + yoe / 4 - yoe / 100 + doy
  era * 146097 + (doe - 719468)

/-- Insertion into a sorted list of rationals (helper for `sortQ`). -/
def insertQ (x : ℚ) : List ℚ → List ℚ
  | [] => [x]
  | y :: ys => if x ≤ y then x :: y :: ys else y :: insertQ x ys

/-- Insertion sort on rationals, modelling the sort pandas performs
inside `Series.median`. -/
def sortQ : List ℚ → List ℚ
  | [] => []
  | x :: xs => insertQ x (sortQ xs)

/-- `pandas.Series.median()`: `none` on an empty series (the model of
`NaN`); otherwise the middle element of the sorted values, or the
midpoint average of the two middle elements when the count is even. -/
def median (l : List ℚ) : Option ℚ :=
  if l = [] then none
  else if l.length % 2 = 1 then some ((sortQ l).getD (l.length / 2) 0)
  else some (((sortQ l).getD (l.length / 2 - 1) 0 + (sortQ l).getD (l.length / 2) 0) / 2)

/-- Line 150: `df[(df["city"] == city_val) & (df["room_type"] == room_type_val)]`. -/
def filterCityRoom (df : Dataset) (city room : String) : Dataset :=
  df.filter (fun r => r.city == city && r.room_type == room)

/-- Line 153: `df[df["city"] == city_val]`. -/
def filterCity (df : Dataset) (city : String) : Dataset :=
  df.filter (fun r => r.city == city)

/-- Lines 150-155: the sequential reassignment of `subset` through the
fallback chain (exact match, then city-only, then the whole dataset). -/
def base_subset (df : Dataset) (city room : String) : Dataset :=
  let subset := filterCityRoom df city room
  let subset := if subset.length = 0 then filterCity df city else subset
  let subset := if subset.length = 0 then df else subset
  subset

/-- Line 157: `base_price = subset["price"].median()`. -/
def base_price (df : Dataset) (city room : String) : Option ℚ :=
  median ((base_subset df city room).map Listing.price)

/-- The closed date range `pd.date_range(a, b)`: every day from `a` to
`b` inclusive (empty when `b < a`). -/
def date_range (a b : ℤ) : List ℤ :=
  (List.range (b - a + 1).toNat).map (fun (i : ℕ) => a + (i : ℤ))

/-- Line 160: `stay_dates = pd.date_range(check_in, check_out - timedelta(days=1))`. -/
def stay_dates (check_in check_out : ℤ) : List ℤ :=
  date_range check_in (check_out - 1)

/-- Lines 162-173: the per-night multiplier (weekend, summer, December
bumps applied multiplicatively to 1.0). -/
def date_multiplier (d : ℤ) : ℚ :=
  let m : ℚ := 1
  let m := if weekday d = 4 ∨ weekday d = 5 then m * (13 / 10) else m
  let m := if monthOf d = 6 ∨ monthOf d = 7 ∨ monthOf d = 8 then m * (12 / 10) else m
  let m := if monthOf d = 12 then m * (14 / 10) else m
  m

/-- Lines 175-179: the average multiplier over the stay
(`sum(mults) / len(mults)`), defaulting to 1.0 when the date list is
empty. -/
def avg_mult (check_in check_out : ℤ) : ℚ :=
  if 0 < (stay_dates check_in check_out).length then
    ((stay_dates check_in check_out).map date_multiplier).sum /
      (((stay_dates check_in check_out).map date_multiplier).length : ℚ)
  else 1

/-- Line 181: `adjusted_price = base_price * avg_mult` (`none`
propagates the `NaN` of an empty-dataset median). -/
def adjusted_price (df : Dataset) (city room : String) (check_in check_out : ℤ) :
    Option ℚ :=
  (base_price df city room).map (fun b => b * avg_mult check_in check_out)

/-- Line 182: `nights = (check_out - check_in).days`. -/
def nights (check_in check_out : ℤ) : ℤ := check_out - check_in

/-- The observable outcome of the predictor block: either the validation
warning (line 146) or the success message with its price and nights. -/
inductive PredictorOutcome where
  | warning
  | result (price : Option ℚ) (nights : ℤ)
deriving DecidableEq, Repr

/-- Lines 145-189: the guarded estimation action. When
`check_out <= check_in` only the warning is shown; otherwise pressing
the button computes and displays the estimate. -/
def predictorAction (df : Dataset) (city room : String) (check_in check_out : ℤ) :
    PredictorOutcome :=
  if check_out ≤ check_in then .warning
  else .result (adjusted_price df city room check_in check_out)
    (nights check_in check_out)

/-- A UI element the dashboard script emits, in source order. -/
inductive UIEvent where
  | priceHistChart
  | roomTypeBarChart
  | roomTypeMissingInfo
  | roomTypePieChart
  | cityBarChart
  | cityMissingInfo
  | predictorUI
  | predictorMissingInfo
deriving DecidableEq, Repr

/-- Lines 33-192: which sections the dashboard renders, as a function of
the CSV's column names (the histogram is unconditional; charts 2-4 and
the predictor are guarded by column presence, with an info message on
the skipped branch). -/
def renderDashboard (cols : List String) : List UIEvent :=
  [UIEvent.priceHistChart]
    ++ (if "room_type" ∈ cols then [UIEvent.roomTypeBarChart]
        else [UIEvent.roomTypeMissingInfo])
    ++ (if "room_type" ∈ cols then [UIEvent.roomTypePieChart] else [])
    ++ (if "city" ∈ cols then [UIEvent.cityBarChart]
        else [UIEvent.cityMissingInfo])
    ++ (if "city" ∈ cols ∧ "room_type" ∈ cols then [UIEvent.predictorUI]
        else [UIEvent.predictorMissingInfo])

/-- The three-row scenario dataset of the spec's testable properties. -/
def scenarioDf : Dataset :=
  [⟨"A", "Entire home", 100⟩, ⟨"A", "Private room", 50⟩, ⟨"B", "Entire home", 200⟩]

/-! ### Supporting lemmas -/

theorem mem_insertQ {x a : ℚ} : ∀ {l : List ℚ}, x ∈ insertQ a l ↔ x = a ∨ x ∈ l := by
  intro l
  induction l with
  | nil => simp [insertQ]
  | cons y ys ih =>
    by_cases h : a ≤ y
    · simp [insertQ, h]
    · simp [insertQ, h, ih]
      tauto

theorem mem_sortQ {x : ℚ} : ∀ {l : List ℚ}, x ∈ sortQ l ↔ x ∈ l := by
  intro l
  induction l with
  | nil => simp [sortQ]
  | cons y ys ih => simp [sortQ, mem_insertQ, ih]

theorem length_insertQ (a : ℚ) : ∀ l : List ℚ, (insertQ a l).length = l.length + 1 := by
  intro l
  induction l with
  | nil => simp [insertQ]
  | cons y ys ih =>
    by_cases h : a ≤ y
    · simp [insertQ, h]
    · simp [insertQ, h, ih]

theorem length_sortQ : ∀ l : List ℚ, (sortQ l).length = l.length := by
  intro l
  induction l with
  | nil => rfl
  | cons y ys ih => simp [sortQ, length_insertQ, ih]

theorem getD_mem : ∀ (l : List ℚ) (i : ℕ), i < l.length → l.getD i 0 ∈ l := by
  intro l
  induction l with
  | nil => simp
  | cons a t ih =>
    intro i hi
    cases i with
    | zero => simp
    | succ j =>
      rw [List.getD_cons_succ]
      exact List.mem_cons_of_mem _ (ih j (by simpa using hi))

theorem median_isSome {l : List ℚ} (h : l ≠ []) : ∃ m, median l = some m := by
  by_cases hp : l.length % 2 = 1 <;> simp [median, h, hp]

theorem median_nonneg {l : List ℚ} (h0 : ∀ x ∈ l, 0 ≤ x) {m : ℚ}
    (hm : median l = some m) : 0 ≤ m := by
  have hl : l ≠ [] := by
    rintro rfl
    simp [median] at hm
  have hlen : 0 < l.length := List.length_pos.mpr hl
  have hx : ∀ i, i < l.length → 0 ≤ (sortQ l).getD i 0 := by
    intro i hi
    exact h0 _ (mem_sortQ.mp (getD_mem _ i (by rw [length_sortQ]; exact hi)))
  rw [median, if_neg hl] at hm
  by_cases hp : l.length % 2 = 1
  · rw [if_pos hp, Option.some_inj] at hm
    exact hm ▸ hx _ (by omega)
  · rw [if_neg hp, Option.some_inj] at hm
    have h1 := hx (l.length / 2 - 1) (by omega)
    have h2 := hx (l.length / 2) (by omega)
    rw [← hm]
    positivity

theorem mem_date_range {a b d : ℤ} : d ∈ date_range a b ↔ a ≤ d ∧ d ≤ b := by
  simp only [date_range, List.mem_map, List.mem_range]
  constructor
  · rintro ⟨i, hi, rfl⟩
    omega
  · rintro ⟨h1, h2⟩
    exact ⟨(d - a).toNat, by omega, by omega⟩

theorem length_stay_dates (check_in check_out : ℤ) :
    (stay_dates check_in check_out).length = (check_out - check_in).toNat := by
  rw [stay_dates, date_range, List.length_map, List.length_range]
  omega

theorem date_multiplier_eq (d : ℤ) :
    date_multiplier d =
      (if weekday d = 4 ∨ weekday d = 5 then (13 / 10 : ℚ) else 1) *
      (if monthOf d = 6 ∨ monthOf d = 7 ∨ monthOf d = 8 then (12 / 10 : ℚ) else 1) *
      (if monthOf d = 12 then (14 / 10 : ℚ) else 1) := by
  rw [date_multiplier]
  split_ifs <;> ring

theorem summer_december_exclusive (d : ℤ) :
    ¬((monthOf d = 6 ∨ monthOf d = 7 ∨ monthOf d = 8) ∧ monthOf d = 12) := by
  rintro ⟨h | h | h, h12⟩ <;> omega

theorem date_multiplier_cases (d : ℤ) :
    date_multiplier d = 1 ∨ date_multiplier d = 6 / 5 ∨ date_multiplier d = 13 / 10 ∨
    date_multiplier d = 7 / 5 ∨ date_multiplier d = 39 / 25 ∨ date_multiplier d = 91 / 50 := by
  by_cases hw : weekday d = 4 ∨ weekday d = 5 <;>
    by_cases hs : monthOf d = 6 ∨ monthOf d = 7 ∨ monthOf d = 8 <;>
    by_cases hd : monthOf d = 12 <;>
    first
      | (exfalso; exact summer_december_exclusive d ⟨hs, hd⟩)
      | (rw [date_multiplier_eq]; simp [hw, hs, hd] <;> norm_num)

theorem one_le_date_multiplier (d : ℤ) : 1 ≤ date_multiplier d := by
  rcases date_multiplier_cases d with h | h | h | h | h | h <;> rw [h] <;> norm_num

theorem date_multiplier_le (d : ℤ) : date_multiplier d ≤ 91 / 50 := by
  rcases date_multiplier_cases d with h | h | h | h | h | h <;> rw [h] <;> norm_num

theorem one_le_avg_mult (check_in check_out : ℤ) : 1 ≤ avg_mult check_in check_out := by
  rw [avg_mult]
  split_ifs with h
  · have hb := List.card_nsmul_le_sum ((stay_dates check_in check_out).map date_multiplier)
      (1 : ℚ) (by rintro x hx; obtain ⟨d, _, rfl⟩ := List.mem_map.mp hx
                  exact one_le_date_multiplier d)
    rw [nsmul_eq_mul] at hb
    rw [le_div_iff₀ (by rw [List.length_map]; exact_mod_cast h)]
    simpa using hb
  · exact le_refl _

theorem avg_mult_le (check_in check_out : ℤ) : avg_mult check_in check_out ≤ 91 / 50 := by
  rw [avg_mult]
  split_ifs with h
  · have hb := List.sum_le_card_nsmul ((stay_dates check_in check_out).map date_multiplier)
      (91 / 50 : ℚ) (by rintro x hx; obtain ⟨d, _, rfl⟩ := List.mem_map.mp hx
                        exact date_multiplier_le d)
    rw [nsmul_eq_mul] at hb
    rw [div_le_iff₀ (by rw [List.length_map]; exact_mod_cast h)]
    calc ((stay_dates check_in check_out).map date_multiplier).sum
        ≤ (((stay_dates check_in check_out).map date_multiplier).length : ℚ) * (91 / 50) := hb
      _ = 91 / 50 * (((stay_dates check_in check_out).map date_multiplier).length : ℚ) := by
          ring
  · norm_num

theorem mem_base_subset {df : Dataset} {city room : String} {r : Listing}
    (h : r ∈ base_subset df city room) : r ∈ df := by
  rw [base_subset] at h
  split_ifs at h with h1 h2 <;>
    first
      | exact h
      | exact List.mem_of_mem_filter h

theorem base_subset_ne_nil {df : Dataset} (h : df ≠ []) (city room : String) :
    base_subset df city room ≠ [] := by
  rw [base_subset]
  split_ifs with h1 h2 <;>
    first
      | exact h
      | (rw [← List.length_pos]; omega)

theorem base_price_isSome {df : Dataset} (h : df ≠ []) (city room : String) :
    ∃ b, base_price df city room = some b := by
  rw [base_price]
  apply median_isSome
  simp only [ne_eq, List.map_eq_nil_iff]
  exact base_subset_ne_nil h city room

theorem base_price_nonneg {df : Dataset} (h0 : ∀ r ∈ df, 0 ≤ r.price)
    {city room : String} {b : ℚ} (hb : base_price df city room = some b) : 0 ≤ b := by
  apply median_nonneg _ hb
  rintro x hx
  obtain ⟨r, hr, rfl⟩ := List.mem_map.mp hx
  exact h0 r (mem_base_subset hr)

/-! ### Claim theorems -/

/-- C1: the base price is resolved by the ordered fallback chain — the
median of the exact city-and-room-type subset when it is non-empty,
otherwise the median of the city-only subset when that is non-empty,
otherwise the median of the whole dataset; and on the 3-row scenario
dataset a query for city "A" with an unmatched room type falls back to
the city-only prices {100, 50}, whose even-count median is the midpoint
75. -/
theorem C1_base_price_fallback_chain (df : Dataset) (city room : String) :
    base_price df city room =
      (if filterCityRoom df city room ≠ [] then
        median ((filterCityRoom df city room).map Listing.price)
      else if filterCity df city ≠ [] then
        median ((filterCity df city).map Listing.price)
      else median (df.map Listing.price))
    ∧ base_price scenarioDf "A" "Shared room" = some 75 := by
  constructor
  · rw [base_price, base_subset]
    by_cases h1 : filterCityRoom df city room = [] <;>
      by_cases h2 : filterCity df city = [] <;>
      simp [h1, h2, List.length_eq_zero]
  · have hs : base_subset scenarioDf "A" "Shared room" =
        [⟨"A", "Entire home", 100⟩, ⟨"A", "Private room", 50⟩] := by decide
    rw [base_price, hs]
    norm_num [median, sortQ, insertQ]
    all_goals simp

/-- C2: the per-night multiplier is the product of the three independent
factors (weekend 1.30, summer 1.20, December 1.40) starting from 1.0;
in particular a December Saturday yields exactly 1.30 * 1.40 = 1.82, and
a non-weekend, non-summer, non-December date yields exactly 1.0. -/
theorem C2_multiplier_product (d e : ℤ) :
    date_multiplier d =
      (if weekday d = 4 ∨ weekday d = 5 then (13 / 10 : ℚ) else 1) *
      (if monthOf d = 6 ∨ monthOf d = 7 ∨ monthOf d = 8 then (12 / 10 : ℚ) else 1) *
      (if monthOf d = 12 then (14 / 10 : ℚ) else 1)
    ∧ (weekday d = 5 → monthOf d = 12 → date_multiplier d = 91 / 50)
    ∧ (¬(weekday e = 4 ∨ weekday e = 5) →
        ¬(monthOf e = 6 ∨ monthOf e = 7 ∨ monthOf e = 8) → monthOf e ≠ 12 →
        date_multiplier e = 1) := by
  refine ⟨date_multiplier_eq d, ?_, ?_⟩
  · intro hw5 hd12
    have hw : weekday d = 4 ∨ weekday d = 5 := Or.inr hw5
    have hs : ¬(monthOf d = 6 ∨ monthOf d = 7 ∨ monthOf d = 8) := fun hs =>
      summer_december_exclusive d ⟨hs, hd12⟩
    rw [date_multiplier_eq]
    simp [hw, hs, hd12]
    norm_num
  · intro hw hs hd
    rw [date_multiplier_eq]
    simp [hw, hs, hd]

/-- Witness for C2: 2024-12-07 is a December Saturday and its multiplier
is exactly 1.82; 2024-01-02 is a Tuesday in January and its multiplier
is exactly 1.0. -/
theorem C2_multiplier_product_witness :
    date_multiplier (daysFromCivil 2024 12 7) = 91 / 50 ∧
    date_multiplier (daysFromCivil 2024 1 2) = 1 := by
  have h := C2_multiplier_product (daysFromCivil 2024 12 7) (daysFromCivil 2024 1 2)
  exact ⟨h.2.1 (by decide) (by decide), h.2.2 (by decide) (by decide) (by decide)⟩

/-- C3: for check_out strictly after check_in, the enumerated nights are
exactly the dates of the half-open interval [check_in, check_out): the
check-in date is included, the day before check-out is included, the
check-out date is excluded, and a one-day stay prices the single date
check_in. -/
theorem C3_stay_dates_half_open (check_in check_out : ℤ) (h : check_in < check_out) :
    (∀ d : ℤ, d ∈ stay_dates check_in check_out ↔ check_in ≤ d ∧ d < check_out)
    ∧ check_in ∈ stay_dates check_in check_out
    ∧ check_out ∉ stay_dates check_in check_out
    ∧ check_out - 1 ∈ stay_dates check_in check_out
    ∧ stay_dates check_in (check_in + 1) = [check_in] := by
  have hm : ∀ d : ℤ, d ∈ stay_dates check_in check_out ↔ check_in ≤ d ∧ d < check_out := by
    intro d
    rw [stay_dates, mem_date_range]
    omega
  refine ⟨hm, (hm _).mpr ⟨le_refl _, h⟩,
    fun hc => absurd ((hm _).mp hc).2 (by omega),
    (hm _).mpr ⟨by omega, by omega⟩, ?_⟩
  rw [stay_dates, date_range]
  norm_num
  rw [show (1 : ℕ) = 0 + 1 from rfl, List.range_succ]
  simp

/-- Witness for C3: a two-day stay [0, 2) contains days 0 and 1 but not
the check-out day 2, and the stay [0, 1) is exactly the single day 0. -/
theorem C3_stay_dates_half_open_witness :
    ((0 : ℤ) ∈ stay_dates 0 2 ∧ (1 : ℤ) ∈ stay_dates 0 2 ∧ (2 : ℤ) ∉ stay_dates 0 2)
    ∧ stay_dates 0 1 = [0] := by
  have h := C3_stay_dates_half_open 0 2 (by decide)
  exact ⟨⟨h.2.1, (h.1 1).mpr (by decide), h.2.2.1⟩, by simpa using h.2.2.2.2⟩

/-- C4: under the precondition, the returned estimate is the base price
times the arithmetic mean of the per-night multipliers (sum divided by
the number of nights), the reported nights count is check_out - check_in
in whole days and appears only as the displayed count (never scaling the
per-night price), and the two-night stay 2024-01-04 to 2024-01-06 (one
1.0 weekday night, one 1.30 Friday night) averages to 1.15. -/
theorem C4_estimate_is_base_times_mean (df : Dataset) (city room : String)
    (check_in check_out : ℤ) (h : check_in < check_out) :
    predictorAction df city room check_in check_out =
      .result ((base_price df city room).map
        (fun b => b * (((stay_dates check_in check_out).map date_multiplier).sum /
          ((stay_dates check_in check_out).length : ℚ))))
        (check_out - check_in)
    ∧ avg_mult (daysFromCivil 2024 1 4) (daysFromCivil 2024 1 6) = 23 / 20 := by
  constructor
  · have hl : 0 < (stay_dates check_in check_out).length := by
      rw [length_stay_dates]
      omega
    rw [predictorAction, if_neg (by omega), adjusted_price, avg_mult, if_pos hl, nights]
    simp only [List.length_map]
  · have h4 : daysFromCivil 2024 1 4 = 19726 := by decide
    have h6 : daysFromCivil 2024 1 6 = 19728 := by decide
    have hsd : stay_dates 19726 19728 = [19726, 19727] := by decide
    rw [h4, h6, avg_mult, hsd]
    norm_num [date_multiplier, weekday, monthOf]

/-- Witness for C4: the scenario dataset with a one-night stay on
2024-01-02 (day 19724) instantiates the theorem, and the 1.15 averaging
example holds. -/
theorem C4_estimate_is_base_times_mean_witness :
    predictorAction scenarioDf "A" "Entire home" 19724 19725 =
      .result ((base_price scenarioDf "A" "Entire home").map
        (fun b => b * (((stay_dates 19724 19725).map date_multiplier).sum /
          ((stay_dates 19724 19725).length : ℚ))))
        (19725 - 19724)
    ∧ avg_mult (daysFromCivil 2024 1 4) (daysFromCivil 2024 1 6) = 23 / 20 :=
  C4_estimate_is_base_times_mean scenarioDf "A" "Entire home" 19724 19725 (by decide)

/-- C5 (against the claim): on a dataset with no rows and a valid
one-night query, the estimation action runs to completion and displays a
result whose price is the undefined median (`none`, the model of pandas
`NaN`); no explicit fatal input-data error is surfaced. -/
theorem C5_empty_dataset_displays_nan :
    predictorAction ([] : Dataset) "A" "Entire home" 0 1 = .result none 1
    ∧ base_price ([] : Dataset) "A" "Entire home" = none := by
  constructor
  · rfl
  · rfl

/-- C6: the estimation action is withheld exactly when
check_out <= check_in — the outcome is the validation warning if and
only if the range is invalid, so the estimator computation never runs on
an invalid range. -/
theorem C6_invalid_range_withheld (df : Dataset) (city room : String)
    (check_in check_out : ℤ) :
    predictorAction df city room check_in check_out = .warning ↔ check_out ≤ check_in := by
  rw [predictorAction]
  split_ifs with h <;> simp [h]

/-- C7: for a non-empty dataset with non-negative prices and a valid
date range, the estimator returns a price that is greater than or equal
to 0. -/
theorem C7_estimate_nonneg (df : Dataset) (city room : String) (check_in check_out : ℤ)
    (hdf : df ≠ []) (hpr : ∀ r ∈ df, 0 ≤ r.price) (_h : check_in < check_out) :
    ∃ p : ℚ, adjusted_price df city room check_in check_out = some p ∧ 0 ≤ p := by
  obtain ⟨b, hb⟩ := base_price_isSome hdf city room
  refine ⟨b * avg_mult check_in check_out, ?_, ?_⟩
  · rw [adjusted_price, hb]
    rfl
  · exact mul_nonneg (base_price_nonneg hpr hb)
      (le_trans zero_le_one (one_le_avg_mult _ _))

/-- Witness for C7: the scenario dataset (non-empty, all prices
non-negative) with a valid one-night query yields a non-negative
estimate. -/
theorem C7_estimate_nonneg_witness :
    ∃ p : ℚ, adjusted_price scenarioDf "A" "Entire home" 19724 19725 = some p ∧ 0 ≤ p :=
  C7_estimate_nonneg scenarioDf "A" "Entire home" 19724 19725 (by decide) (by decide)
    (by decide)

/-- C8: the enumerated stay-date list is empty exactly when
check_out <= check_in, so under the precondition check_out > check_in it
is non-empty and the defensive zero-nights branch (average multiplier
defaulting to 1.0) is unreachable; the 1.0 default is taken precisely
outside the precondition. -/
theorem C8_zero_nights_unreachable (check_in check_out : ℤ) :
    (stay_dates check_in check_out = [] ↔ check_out ≤ check_in)
    ∧ avg_mult check_in check_out =
        (if stay_dates check_in check_out = [] then 1
         else ((stay_dates check_in check_out).map date_multiplier).sum /
           (((stay_dates check_in check_out).map date_multiplier).length : ℚ)) := by
  have hiff : stay_dates check_in check_out = [] ↔ check_out ≤ check_in := by
    rw [← List.length_eq_zero, length_stay_dates]
    omega
  refine ⟨hiff, ?_⟩
  by_cases h : stay_dates check_in check_out = []
  · simp [avg_mult, h]
  · simp [avg_mult, h, List.length_pos.mpr h]

/-- C9: when the city column or the room_type column is missing, the
predictor section is replaced by its informational message (the
predictor UI never renders), while the histogram and the other sections
that have their columns continue to render. -/
theorem C9_missing_columns_disable_predictor (cols : List String)
    (h : "city" ∉ cols ∨ "room_type" ∉ cols) :
    UIEvent.predictorMissingInfo ∈ renderDashboard cols
    ∧ UIEvent.predictorUI ∉ renderDashboard cols
    ∧ UIEvent.priceHistChart ∈ renderDashboard cols
    ∧ ("room_type" ∈ cols → UIEvent.roomTypeBarChart ∈ renderDashboard cols ∧
        UIEvent.roomTypePieChart ∈ renderDashboard cols)
    ∧ ("city" ∈ cols → UIEvent.cityBarChart ∈ renderDashboard cols) := by
  have hnot : ¬("city" ∈ cols ∧ "room_type" ∈ cols) := by tauto
  refine ⟨?_, ?_, ?_, ?_, ?_⟩
  · simp [renderDashboard, hnot]
  · simp [renderDashboard, hnot]
    split_ifs <;> simp
  · simp [renderDashboard]
  · intro hr
    simp [renderDashboard, hr]
  · intro hc
    simp [renderDashboard, hc]

/-- Witness for C9: with columns price and room_type but no city column,
the predictor is disabled with its info message while the histogram and
the room-type chart still render. -/
theorem C9_missing_columns_disable_predictor_witness :
    UIEvent.predictorMissingInfo ∈ renderDashboard ["price", "room_type"]
    ∧ UIEvent.predictorUI ∉ renderDashboard ["price", "room_type"]
    ∧ UIEvent.priceHistChart ∈ renderDashboard ["price", "room_type"]
    ∧ UIEvent.roomTypeBarChart ∈ renderDashboard ["price", "room_type"] := by
  have h := C9_missing_columns_disable_predictor ["price", "room_type"] (by simp)
  exact ⟨h.1, h.2.1, h.2.2.1, (h.2.2.2.1 (by simp)).1⟩

/-- C10 (implicit): the summer and December month conditions are
mutually exclusive, every per-night multiplier lies in the finite set
{1, 1.2, 1.3, 1.4, 1.56, 1.82}, hence 1 <= multiplier <= 1.82 for every
date, and for a non-negative base price the estimate is at most 1.82
times the base price. -/
theorem C10_multiplier_and_estimate_bounds (d : ℤ) (df : Dataset) (city room : String)
    (check_in check_out : ℤ) (b : ℚ)
    (hb : base_price df city room = some b) (hb0 : 0 ≤ b) :
    ¬((monthOf d = 6 ∨ monthOf d = 7 ∨ monthOf d = 8) ∧ monthOf d = 12)
    ∧ (date_multiplier d = 1 ∨ date_multiplier d = 6 / 5 ∨ date_multiplier d = 13 / 10 ∨
       date_multiplier d = 7 / 5 ∨ date_multiplier d = 39 / 25 ∨ date_multiplier d = 91 / 50)
    ∧ 1 ≤ date_multiplier d ∧ date_multiplier d ≤ 91 / 50
    ∧ ∃ p : ℚ, adjusted_price df city room check_in check_out = some p ∧ p ≤ 91 / 50 * b := by
  refine ⟨summer_december_exclusive d, date_multiplier_cases d, one_le_date_multiplier d,
    date_multiplier_le d, b * avg_mult check_in check_out, ?_, ?_⟩
  · rw [adjusted_price, hb]
    rfl
  · calc b * avg_mult check_in check_out
        ≤ b * (91 / 50) := mul_le_mul_of_nonneg_left (avg_mult_le _ _) hb0
      _ = 91 / 50 * b := by ring

/-- Witness for C10: day 0 (1970-01-01) and the scenario dataset with
base price 100 instantiate the bounds; the one-night estimate is at most
1.82 * 100. -/
theorem C10_multiplier_and_estimate_bounds_witness :
    ¬((monthOf 0 = 6 ∨ monthOf 0 = 7 ∨ monthOf 0 = 8) ∧ monthOf 0 = 12)
    ∧ (date_multiplier 0 = 1 ∨ date_multiplier 0 = 6 / 5 ∨ date_multiplier 0 = 13 / 10 ∨
       date_multiplier 0 = 7 / 5 ∨ date_multiplier 0 = 39 / 25 ∨ date_multiplier 0 = 91 / 50)
    ∧ 1 ≤ date_multiplier 0 ∧ date_multiplier 0 ≤ 91 / 50
    ∧ ∃ p : ℚ, adjusted_price scenarioDf "A" "Entire home" 19724 19725 = some p ∧
        p ≤ 91 / 50 * 100 := by
  have hb : base_price scenarioDf "A" "Entire home" = some 100 := by
    have hs : base_subset scenarioDf "A" "Entire home" = [⟨"A", "Entire home", 100⟩] := by
      decide
    rw [base_price, hs]
    norm_num [median, sortQ, insertQ]
  exact C10_multiplier_and_estimate_bounds 0 scenarioDf "A" "Entire home" 19724 19725 100
    hb (by norm_num)

end Airbnb
